import Mathlib

/-!
Verification development for the `keycloak-basic` Go backend middleware
(`backend/middleware/config.go`, `helper.go`, `jwt.go`, `tokenintrospect.go`).

The Go code is shallowly embedded: pure logic becomes Lean functions; the
global key map and the HTTP side effects become explicit parameters and
results.  Timestamps are modelled as integers (unix seconds); the network is
modelled as a function from the request token to the provider's observable
response.  Strings that the code only threads through error messages are
reproduced from the `fmt.Errorf` format strings in the source; message text
coming from inside the `golang-jwt/v5` library is abbreviated to its
distinguishing prefix, since no statement below inspects those strings
beyond the structured error constructor.
-/

set_option autoImplicit false

/-- Decidable equality for `Except`, used to evaluate the embedded
functions on concrete inputs. -/
instance exceptDecidableEq {ε α : Type} [DecidableEq ε] [DecidableEq α] :
    DecidableEq (Except ε α) := fun x y =>
  match x, y with
  | .error a, .error b =>
    if h : a = b then .isTrue (congrArg Except.error h)
    else .isFalse (fun hh => h (Except.error.inj hh))
  | .error _, .ok _ => .isFalse (fun hh => Except.noConfusion hh)
  | .ok _, .error _ => .isFalse (fun hh => Except.noConfusion hh)
  | .ok a, .ok b =>
    if h : a = b then .isTrue (congrArg Except.ok h)
    else .isFalse (fun hh => h (Except.ok.inj hh))

/-! ## config.go -/

/-- `keycloakURL` from config.go: the Keycloak realm URL used as expected issuer. -/
def keycloakURL : String := "http://localhost:8080/realms/users"

/-- `serverClientID` from config.go. -/
def serverClientID : String := "36601c4e-2027-41f9-b02e-c6a06e20d171"

/-- `serverClientSecret` from config.go. -/
def serverClientSecret : String := "TPuXmlD9X4nzLb5toUTi6MnmWUtoT88U"

/-! ## helper.go: extractBearerToken -/

/-- Structured failure of `extractBearerToken`, distinguishing the two
rejection branches in helper.go (missing/empty header vs. bad format). -/
inductive ExtractErr where
  | missingHeader
  | malformedHeader
deriving DecidableEq, Repr

/-- Go `strings.Split(s, " ")` on the character list of a (non-nil) string:
splits at every single space character, keeping empty fields. -/
def splitOnSpace : List Char → List (List Char)
  | [] => [[]]
  | c :: rest =>
    match splitOnSpace rest with
    | [] => [[c]]
    | p :: ps => if c = ' ' then [] :: p :: ps else (c :: p) :: ps

/-- Spec-words counterpart of `splitOnSpace`, used only to compare the code
against the spec sentence "Header must split into exactly two
whitespace-separated parts": splits at every whitespace character
(space, tab, carriage return, line feed), keeping empty fields. -/
def splitOnWhitespace : List Char → List (List Char)
  | [] => [[]]
  | c :: rest =>
    match splitOnWhitespace rest with
    | [] => [[c]]
    | p :: ps => if c.isWhitespace then [] :: p :: ps else (c :: p) :: ps

/-- `extractBearerToken` (helper.go lines 16-38).  The gin context is
abstracted to the value of the `Authorization` header (`c.GetHeader` returns
`""` when the header is absent, so absent and empty coincide, as in Go).
The 401 response body written on failure is recovered by `extractErrBody`. -/
def extractBearerToken (authHeader : String) : Except ExtractErr String :=
  if authHeader = "" then
    .error .missingHeader
  else
    match splitOnSpace authHeader.data with
    | [scheme, tok] =>
      if String.mk scheme = "Bearer" then .ok (String.mk tok)
      else .error .malformedHeader
    | _ => .error .malformedHeader

/-- The JSON body `extractBearerToken` writes with status 401 on each failure
branch (`gin.H` modelled as an association list of string fields). -/
def extractErrBody : ExtractErr → List (String × String)
  | .missingHeader => [("error", "Authorization header required")]
  | .malformedHeader =>
      [("error", "Invalid authorization header format. Expected: Bearer <token>")]

/-! ## jwt.go: data structures -/

/-- `JWK` from jwt.go: a single JSON Web Key as decoded from the JWKS document. -/
structure JWK where
  kid : String
  kty : String
  alg : String
  use : String
  n : String
  e : String
deriving DecidableEq, Repr

/-- `JWKS` from jwt.go. -/
structure JWKS where
  keys : List JWK
deriving DecidableEq, Repr

/-- `rsa.PublicKey`: modulus `N` is a `big.Int` (a natural number here, the
JWKS moduli are unsigned), exponent `E` is a Go `int` (64-bit). -/
structure RSAPublicKey where
  n : Nat
  e : Int
deriving DecidableEq, Repr

/-- `CustomClaims` from jwt.go: the registered claims the code inspects
(`Issuer`, `Subject`, `ExpiresAt`, `Audience`) plus the custom Keycloak
fields.  `exp = none` models an absent `exp` claim.  `nbf`/`iat`/`jti` are
never inspected by the code and the modelled tokens carry none. -/
structure CustomClaims where
  issuer : String
  sub : String
  exp : Option Int
  aud : List String
  preferredUsername : String
  email : String
  name : String
deriving DecidableEq, Repr

/-! ## jwt.go: base64url and JWK-to-RSA conversion -/

/-- Value of one character of the base64url alphabet (`base64.RawURLEncoding`),
`none` for a character outside the alphabet. -/
def b64urlVal (c : Char) : Option Nat :=
  if 'A' ≤ c ∧ c ≤ 'Z' then some (c.toNat - 65)
  else if 'a' ≤ c ∧ c ≤ 'z' then some (c.toNat - 71)
  else if '0' ≤ c ∧ c ≤ '9' then some (c.toNat + 4)
  else if c = '-' then some 62
  else if c = '_' then some 63
  else none

/-- Go `base64.RawURLEncoding.DecodeString` followed by
`new(big.Int).SetBytes`: decoding yields `floor(6*len/8)` bytes read
big-endian, so the resulting integer is the base-64 digit value shifted
right by the leftover bits.  Fails like Go on a character outside the
alphabet or on an input length `≡ 1 (mod 4)`. -/
def base64urlDecodeNat (s : String) : Except String Nat :=
  if s.data.length % 4 = 1 then .error "illegal base64 data"
  else
    match s.data.mapM b64urlVal with
    | none => .error "illegal base64 data"
    | some ds => .ok ((ds.foldl (fun a d => a * 64 + d) 0) >>> ((6 * ds.length) % 8))

/-- Go `int(e.Int64())` on a non-negative `big.Int`: two's-complement
truncation to 64 bits (the `big.Int` result is implementation-defined when
the value does not fit; the low 64 bits is what the implementation yields). -/
def int64Trunc (m : Nat) : Int :=
  if m % 2 ^ 64 < 2 ^ 63 then ((m % 2 ^ 64 : Nat) : Int)
  else ((m % 2 ^ 64 : Nat) : Int) - 2 ^ 64

/-- `jwkToRSAPublicKey` (jwt.go): decode modulus, decode exponent, build the key. -/
def jwkToRSAPublicKey (jwk : JWK) : Except String RSAPublicKey :=
  match base64urlDecodeNat jwk.n with
  | .error e => .error ("failed to decode modulus: " ++ e)
  | .ok nv =>
    match base64urlDecodeNat jwk.e with
    | .error e => .error ("failed to decode exponent: " ++ e)
    | .ok ev => .ok { n := nv, e := int64Trunc ev }

/-! ## jwt.go: the key map (`publicKeys` global) -/

/-- The global `publicKeys map[string]*rsa.PublicKey`, modelled as an
association list with at most one binding per kid (Go map iteration order is
irrelevant to the code, which only does point lookups). -/
abbrev KeyMap := List (String × RSAPublicKey)

/-- Go map assignment `m[k] = v`: replace the binding if present, else append. -/
def mapInsert : KeyMap → String → RSAPublicKey → KeyMap
  | [], k, v => [(k, v)]
  | (k0, v0) :: rest, k, v =>
    if k0 = k then (k, v) :: rest else (k0, v0) :: mapInsert rest k v

/-- Go map lookup `m[k]` (the `value, ok` form). -/
def mapLookup : KeyMap → String → Option RSAPublicKey
  | [], _ => none
  | (k0, v0) :: rest, k => if k0 = k then some v0 else mapLookup rest k

/-- The conversion loop of `GetKeycloakPublicKey`: fold over the fetched key
records, inserting each converted key, stopping at the first conversion
error.  Returns the function result together with the state of the map when
the loop stops (on error, the map keeps the insertions made so far). -/
def convertKeysLoop : List JWK → KeyMap → Except String Unit × KeyMap
  | [], m => (.ok (), m)
  | k :: rest, m =>
    match jwkToRSAPublicKey k with
    | .error e => (.error ("failed to convert JWK to RSA public key: " ++ e), m)
    | .ok pk => convertKeysLoop rest (mapInsert m k.kid pk)

/-- `GetKeycloakPublicKey` (jwt.go lines 83-101).  The network fetch
(`fetchJWKS`) is abstracted to its result; the global `publicKeys` map is
threaded explicitly: `prev` is its value before the call, the second
component of the result its value after.  Note the code runs
`publicKeys = make(...)` before the conversion loop, so the previous map is
discarded as soon as the fetch succeeds. -/
def GetKeycloakPublicKey (fetch : Except String JWKS) (prev : KeyMap) :
    Except String Unit × KeyMap :=
  match fetch with
  | .error e => (.error ("failed to fetch JWKS: " ++ e), prev)
  | .ok jwks => convertKeysLoop jwks.keys []

/-! ## jwt.go: verifyToken

`verifyToken` calls `jwt.ParseWithClaims` (golang-jwt v5 with default
options).  The v5 parser proceeds: structural parse → the supplied keyfunc
(which here checks the signing method is `*jwt.SigningMethodRSA`, reads the
`kid` header, and looks the kid up in `publicKeys`) → signature
verification → registered-claims validation (with default options this
checks `exp`: the token is rejected when `now < exp` fails).  Only then do
the explicit checks in verifyToken run: issuer equality, `ExpiresAt.Before(now)`,
and audience membership of `"account"`.

A token string is modelled by its parse: `none` for a structurally
malformed string, otherwise a `Token` giving the declared algorithm, the
`kid` header (`none` when absent or not a string), the verification result
of the signature (`sigKey = some k` when the signature over the token is
valid under public key `k`; `none` when no key validates it), and the
decoded claims. -/

/-- A structurally well-formed token as seen after `ParseUnverified`. -/
structure Token where
  alg : String
  kid : Option String
  sigKey : Option RSAPublicKey
  claims : CustomClaims
deriving DecidableEq, Repr

/-- The Go type assertion `token.Method.(*jwt.SigningMethodRSA)`: succeeds
exactly for the plain RSA methods RS256/RS384/RS512 (RSA-PSS methods have a
different concrete type). -/
def isRSAMethod (alg : String) : Bool :=
  alg = "RS256" || alg = "RS384" || alg = "RS512"

/-- Structured failure of `verifyToken`, one constructor per distinct
rejection path.  The first six arise inside `jwt.ParseWithClaims` and are
surfaced by verifyToken as `failed to parse token: ...`; the last three are
verifyToken's own explicit checks.  `hasExpired` (the explicit
`ExpiresAt.Before(now)` check) is kept for faithfulness although the v5
parser's own `exp` validation screens every token that could reach it. -/
inductive VerifyErr where
  | malformedToken
  | unexpectedSigningMethod (alg : String)
  | kidNotFound
  | unknownKey (kid : String)
  | badSignature
  | tokenExpired
  | invalidIssuer (got : String)
  | hasExpired
  | invalidAudience
deriving DecidableEq, Repr

/-- The `err.Error()` text of each failure (library-internal wrapping
abbreviated; the repository's own `fmt.Errorf` formats reproduced). -/
def VerifyErr.message : VerifyErr → String
  | .malformedToken => "failed to parse token: token is malformed"
  | .unexpectedSigningMethod a =>
      "failed to parse token: token is unverifiable: error while executing keyfunc: unexpected signing method: " ++ a
  | .kidNotFound =>
      "failed to parse token: token is unverifiable: error while executing keyfunc: kid header not found in token"
  | .unknownKey kid =>
      "failed to parse token: token is unverifiable: error while executing keyfunc: public key not found for kid: " ++ kid
  | .badSignature => "failed to parse token: token signature is invalid"
  | .tokenExpired => "failed to parse token: token has invalid claims: token is expired"
  | .invalidIssuer got => "invalid issuer: expected " ++ keycloakURL ++ ", got " ++ got
  | .hasExpired => "token has expired"
  | .invalidAudience => "invalid audience"

/-- `verifyToken` (jwt.go lines 109-169) on a structurally well-formed
token, at verification time `now`, against the key map `publicKeys`. -/
def verifyToken (tok : Token) (now : Int) (publicKeys : KeyMap) :
    Except VerifyErr CustomClaims :=
  -- keyfunc, run by the parser before signature verification
  if ¬ isRSAMethod tok.alg then .error (.unexpectedSigningMethod tok.alg)
  else
    match tok.kid with
    | none => .error .kidNotFound
    | some kid =>
      match mapLookup publicKeys kid with
      | none => .error (.unknownKey kid)
      | some key =>
        -- signature verification against the key the keyfunc returned
        if tok.sigKey ≠ some key then .error .badSignature
        else
          -- v5 default claims validation: exp, when present, must satisfy now < exp
          if (match tok.claims.exp with | some e => decide (e ≤ now) | none => false) then
            .error .tokenExpired
          else
            -- explicit checks in verifyToken after a successful parse
            if tok.claims.issuer ≠ keycloakURL then .error (.invalidIssuer tok.claims.issuer)
            else if (match tok.claims.exp with | some e => decide (e < now) | none => false) then
              .error .hasExpired
            else if tok.claims.aud.length > 0 ∧ ¬ tok.claims.aud.contains "account" then
              .error .invalidAudience
            else .ok tok.claims

/-- `verifyToken` on a raw token string: `parseTok` is the structural parse
(`none` = `ParseUnverified` fails, surfaced as a malformed-token parse error). -/
def verifyTokenStr (s : String) (parseTok : String → Option Token) (now : Int)
    (publicKeys : KeyMap) : Except VerifyErr CustomClaims :=
  match parseTok s with
  | none => .error .malformedToken
  | some tok => verifyToken tok now publicKeys

/-! ## The two gates -/

/-- Observable outcome of running one of the middleware handlers on a
request: the HTTP status written by the gate (`none` when the gate wrote no
response), the JSON body written, the identity attributes stored in the
request context via `c.Set` (`some (user_id, email)`), and whether
`c.Next()` ran (the downstream handler was invoked). -/
structure GateResult where
  status : Option Nat
  body : List (String × String)
  ctx : Option (String × String)
  nextCalled : Bool
deriving DecidableEq, Repr

/-- `JWTAuthMiddleware` (jwt.go lines 236-268). -/
def JWTAuthMiddleware (authHeader : String) (parseTok : String → Option Token)
    (now : Int) (publicKeys : KeyMap) : GateResult :=
  match extractBearerToken authHeader with
  | .error e =>
      { status := some 401, body := extractErrBody e, ctx := none, nextCalled := false }
  | .ok tokStr =>
    match verifyTokenStr tokStr parseTok now publicKeys with
    | .error e =>
        { status := some 401
          body := [("error", "Invalid or expired JWT token"),
                   ("detail", e.message),
                   ("method", "JWT Validation")]
          ctx := none, nextCalled := false }
    | .ok claims =>
        { status := none, body := [], ctx := some (claims.sub, claims.email),
          nextCalled := true }

/-! ## tokenintrospect.go -/

/-- `IntrospectionResponse` from tokenintrospect.go. -/
structure IntrospectionResponse where
  active : Bool
  exp : Int
  iat : Int
  clientID : String
  username : String
  tokenType : String
  sub : String
  email : String
deriving DecidableEq, Repr

/-- Result of `json.Unmarshal` on the response body. -/
inductive BodyContent where
  | malformedJSON
  | introspection (r : IntrospectionResponse)
deriving DecidableEq, Repr

/-- Result of `io.ReadAll(resp.Body)`. -/
inductive BodyResult where
  | readError (msg : String)
  | content (c : BodyContent)
deriving DecidableEq, Repr

/-- What the provider observably does for one introspection POST: a
transport error from `client.Do`, or an HTTP response with a status code
and a body. -/
inductive ProviderResult where
  | transportError (msg : String)
  | httpResponse (status : Nat) (body : BodyResult)
deriving DecidableEq, Repr

/-- Structured failure of `introspectToken`, one constructor per rejection
path in tokenintrospect.go (request construction with a constant valid URL
cannot fail and is not modelled). -/
inductive IntrospectErr where
  | transport (msg : String)
  | readBody (msg : String)
  | badStatus (status : Nat)
  | malformedResponse
deriving DecidableEq, Repr

/-- The `err.Error()` text of each introspection failure (the raw body
string appended to the bad-status message in Go is not modelled). -/
def IntrospectErr.message : IntrospectErr → String
  | .transport m => "failed to introspect token: " ++ m
  | .readBody m => "failed to read introspection response: " ++ m
  | .badStatus st => "introspection failed with status " ++ toString st
  | .malformedResponse => "failed to parse introspection response"

/-- `introspectToken` (tokenintrospect.go lines 78-122): POST the token with
the service credentials, then in order: transport error → fail; body read
error → fail; status other than 200 → fail; unmarshal error → fail;
otherwise return the parsed response (without inspecting `active`). -/
def introspectToken (token : String) (provider : String → ProviderResult) :
    Except IntrospectErr IntrospectionResponse :=
  match provider token with
  | .transportError m => .error (.transport m)
  | .httpResponse st body =>
    match body with
    | .readError m => .error (.readBody m)
    | .content c =>
      if st ≠ 200 then .error (.badStatus st)
      else
        match c with
        | .malformedJSON => .error .malformedResponse
        | .introspection r => .ok r

/-- `TokenIntrospectionMiddleware` (tokenintrospect.go lines 38-75). -/
def TokenIntrospectionMiddleware (authHeader : String)
    (provider : String → ProviderResult) : GateResult :=
  match extractBearerToken authHeader with
  | .error e =>
      { status := some 401, body := extractErrBody e, ctx := none, nextCalled := false }
  | .ok tokStr =>
    match introspectToken tokStr provider with
    | .error e =>
        { status := some 500
          body := [("error", "Failed to introspect token"),
                   ("detail", e.message),
                   ("method", "Token Introspection")]
          ctx := none, nextCalled := false }
    | .ok r =>
      if ¬ r.active then
        { status := some 401
          body := [("error", "Token is not active or has been revoked"),
                   ("method", "Token Introspection")]
          ctx := none, nextCalled := false }
      else
        { status := none, body := [], ctx := some (r.sub, r.email), nextCalled := true }

/-- Whether a JSON body (association list) carries a field named `k`. -/
def hasField (body : List (String × String)) (k : String) : Bool :=
  body.any (fun p => p.1 = k)

/-! ## Sample data used by concrete witnesses and counterexamples -/

/-- A sample RSA public key cached under kid "k1". -/
def pkA : RSAPublicKey := { n := 3233, e := 17 }

/-- A second RSA public key, not present in `ks1`. -/
def pkB : RSAPublicKey := { n := 3599, e := 17 }

/-- A sample key map holding only kid "k1". -/
def ks1 : KeyMap := [("k1", pkA)]

/-- Sample claims that pass all of verifyToken's checks at `now = 0`. -/
def okClaims : CustomClaims :=
  { issuer := keycloakURL, sub := "user-1", exp := some 1000, aud := ["account"],
    preferredUsername := "user1", email := "user1@example.com", name := "User One" }

/-- A token carrying kid "k1" but a signature made by the uncached key `pkB`. -/
def tokBadSig : Token :=
  { alg := "RS256", kid := some "k1", sigKey := some pkB, claims := okClaims }

/-- Like `tokBadSig` but additionally expired. -/
def tokExpiredBadSig : Token :=
  { alg := "RS256", kid := some "k1", sigKey := some pkB,
    claims := { okClaims with exp := some (-100) } }

/-- A token that passes every check of `verifyToken` against `ks1`. -/
def tokGood : Token :=
  { alg := "RS256", kid := some "k1", sigKey := some pkA, claims := okClaims }

/-- A correctly signed token whose kid "kX" is not cached in `ks1`. -/
def tokUnknownKid : Token :=
  { alg := "RS256", kid := some "kX", sigKey := some pkB, claims := okClaims }

/-- A correctly signed but expired token. -/
def tokExpiredGoodSig : Token :=
  { alg := "RS256", kid := some "k1", sigKey := some pkA,
    claims := { okClaims with exp := some (-5) } }

/-- A sample well-formed introspection verdict with `active = false`. -/
def rInactive : IntrospectionResponse :=
  { active := false, exp := 900, iat := 100, clientID := "c1", username := "user1",
    tokenType := "Bearer", sub := "user-1", email := "user1@example.com" }

/-- A JWK that converts successfully (both fields decode to 65537). -/
def goodJWK : JWK :=
  { kid := "k1", kty := "RSA", alg := "RS256", use := "sig", n := "AQAB", e := "AQAB" }

/-- A JWK whose modulus is not base64url (the character `!`), so conversion fails. -/
def badJWK : JWK :=
  { kid := "k2", kty := "RSA", alg := "RS256", use := "sig", n := "!", e := "AQAB" }

/-- A key-set document whose second record fails to convert. -/
def jwksPartial : JWKS := { keys := [goodJWK, badJWK] }

/-- A key-set document all of whose records convert. -/
def jwksGood : JWKS := { keys := [goodJWK] }

/-! ## Claims about the bearer extractor -/

/-- Claim C3 (amended): the header is split on the single space character
(Go `strings.Split(authHeader, " ")`), not on general whitespace.  An
absent or empty header fails with the missing-header error; a header that
splits on spaces into exactly two parts whose first is the literal
case-sensitive string "Bearer" succeeds and returns the second part
unmodified; every other header fails with the malformed-header error. -/
theorem extractBearerToken_characterization (hdr : String) :
    (hdr = "" → extractBearerToken hdr = .error .missingHeader) ∧
    (∀ a b : List Char, hdr ≠ "" → splitOnSpace hdr.data = [a, b] →
      String.mk a = "Bearer" → extractBearerToken hdr = .ok (String.mk b)) ∧
    (∀ a b : List Char, hdr ≠ "" → splitOnSpace hdr.data = [a, b] →
      String.mk a ≠ "Bearer" → extractBearerToken hdr = .error .malformedHeader) ∧
    (hdr ≠ "" → (∀ a b : List Char, splitOnSpace hdr.data ≠ [a, b]) →
      extractBearerToken hdr = .error .malformedHeader) := by
  refine ⟨?_, ?_, ?_, ?_⟩
  · intro h
    simp [extractBearerToken, h]
  · intro a b hne hsplit heq
    simp [extractBearerToken, hne, hsplit, heq]
  · intro a b hne hsplit heq
    simp [extractBearerToken, hne, hsplit, heq]
  · intro hne hno
    simp only [extractBearerToken, if_neg hne]

/-- Claim C3 counterexample: the header consisting of "Bearer", a tab
character and "x" is made of exactly two whitespace-separated parts with
the first equal to "Bearer", yet `extractBearerToken` rejects it as
malformed, because the code splits on the space character only. -/
theorem extractBearerToken_tab_counterexample :
    splitOnWhitespace "Bearer\tx".data = ["Bearer".data, "x".data] ∧
    "Bearer\tx" ≠ "" ∧
    extractBearerToken "Bearer\tx" = .error .malformedHeader := by
  refine ⟨by decide, by decide, by decide⟩

/-- Concrete instantiation of `extractBearerToken_characterization`. -/
theorem extractBearerToken_characterization_witness :
    extractBearerToken "Bearer abc" = .ok "abc" ∧
    extractBearerToken "" = .error .missingHeader := by
  constructor
  · exact (extractBearerToken_characterization "Bearer abc").2.1 "Bearer".data "abc".data
      (by decide) (by decide) (by decide)
  · exact (extractBearerToken_characterization "").1 rfl

/-- Claim C10: the header "Bearer " (the scheme, one space, and nothing
else) is accepted by `extractBearerToken`, which returns the empty string
as the token rather than rejecting the header as malformed. -/
theorem extractBearerToken_empty_token_accepted :
    extractBearerToken "Bearer " = .ok "" := by decide

/-! ## Claims about the signature verifier -/

/-- Claim C1 (amended): for every RSA-algorithm token whose kid header is
present but absent from the key-set cache, `verifyToken` fails with the
unknown-key failure ("public key not found for kid") and never with a
signature failure: the key lookup runs inside the parser's keyfunc, before
any signature verification is attempted.  (A token signed by an uncached
key that nevertheless names a cached kid instead fails signature
verification; see the counterexample.) -/
theorem verifyToken_unknown_kid (tok : Token) (now : Int) (ks : KeyMap) (kid : String)
    (halg : isRSAMethod tok.alg = true) (hkid : tok.kid = some kid)
    (hlook : mapLookup ks kid = none) :
    verifyToken tok now ks = .error (.unknownKey kid) := by
  simp [verifyToken, halg, hkid, hlook]

/-- Claim C1 counterexample: a token whose signature was produced with a
key absent from the cache (`pkB` is not a value of `ks1`) but whose kid
names the cached key "k1": `verifyToken` fails with the signature failure,
not the unknown-key failure. -/
theorem verifyToken_uncached_signer_counterexample :
    (∀ p ∈ ks1, p.2 ≠ pkB) ∧
    tokBadSig.sigKey = some pkB ∧
    verifyToken tokBadSig 0 ks1 = .error .badSignature := by
  refine ⟨by decide, rfl, by decide⟩

/-- Concrete instantiation of `verifyToken_unknown_kid`. -/
theorem verifyToken_unknown_kid_witness :
    verifyToken tokUnknownKid 0 ks1 = .error (.unknownKey "kX") :=
  verifyToken_unknown_kid tokUnknownKid 0 ks1 "kX" (by decide) rfl (by decide)

/-- Claim C2 (amended): a token whose `exp` claim lies strictly in the past
fails with the expiry failure provided its signature is valid (the v5
parser checks `exp` right after signature verification; verifyToken's own
explicit check can no longer fire).  When the signature is invalid the
verifier instead fails with the signature failure, because signature
verification precedes every expiry check; see the counterexample. -/
theorem verifyToken_expired_valid_signature (tok : Token) (now : Int) (ks : KeyMap)
    (kid : String) (key : RSAPublicKey) (e : Int)
    (halg : isRSAMethod tok.alg = true) (hkid : tok.kid = some kid)
    (hlook : mapLookup ks kid = some key) (hsig : tok.sigKey = some key)
    (hexp : tok.claims.exp = some e) (hpast : e < now) :
    verifyToken tok now ks = .error .tokenExpired := by
  have hle : e ≤ now := le_of_lt hpast
  simp [verifyToken, halg, hkid, hlook, hsig, hexp, hle]

/-- Claim C2 counterexample: a token with `exp` strictly in the past
(`-100`, verified at time `0`) and an invalid signature: `verifyToken`
fails with the signature failure, not an expiry failure. -/
theorem verifyToken_expired_bad_signature_counterexample :
    tokExpiredBadSig.claims.exp = some (-100) ∧
    ((-100 : Int) < 0) ∧
    verifyToken tokExpiredBadSig 0 ks1 = .error .badSignature ∧
    verifyToken tokExpiredBadSig 0 ks1 ≠ .error .tokenExpired ∧
    verifyToken tokExpiredBadSig 0 ks1 ≠ .error .hasExpired := by
  refine ⟨rfl, by decide, by decide, by decide, by decide⟩

/-- Concrete instantiation of `verifyToken_expired_valid_signature`. -/
theorem verifyToken_expired_valid_signature_witness :
    verifyToken tokExpiredGoodSig 0 ks1 = .error .tokenExpired :=
  verifyToken_expired_valid_signature tokExpiredGoodSig 0 ks1 "k1" pkA (-5)
    (by decide) rfl (by decide) rfl rfl (by decide)

/-- Claim C4: for a token that passes the signature, issuer and expiration
checks, an empty audience list is accepted, a non-empty audience list
containing the recognized value "account" is accepted, and a non-empty
audience list without "account" is rejected with the invalid-audience
failure. -/
theorem verifyToken_audience (tok : Token) (now : Int) (ks : KeyMap)
    (kid : String) (key : RSAPublicKey)
    (halg : isRSAMethod tok.alg = true) (hkid : tok.kid = some kid)
    (hlook : mapLookup ks kid = some key) (hsig : tok.sigKey = some key)
    (hiss : tok.claims.issuer = keycloakURL)
    (hexp : ∀ e, tok.claims.exp = some e → now < e) :
    (tok.claims.aud = [] → verifyToken tok now ks = .ok tok.claims) ∧
    (tok.claims.aud.contains "account" = true → verifyToken tok now ks = .ok tok.claims) ∧
    (tok.claims.aud ≠ [] → tok.claims.aud.contains "account" = false →
      verifyToken tok now ks = .error .invalidAudience) := by
  have hexp1 : (match tok.claims.exp with | some e => decide (e ≤ now) | none => false) = false := by
    cases h : tok.claims.exp with
    | none => rfl
    | some e =>
      have h2 := hexp e h
      simp only [decide_eq_false_iff_not]
      omega
  have hexp2 : (match tok.claims.exp with | some e => decide (e < now) | none => false) = false := by
    cases h : tok.claims.exp with
    | none => rfl
    | some e =>
      have h2 := hexp e h
      simp only [decide_eq_false_iff_not]
      omega
  refine ⟨?_, ?_, ?_⟩
  · intro ha
    simp [verifyToken, halg, hkid, hlook, hsig, hexp1, hexp2, hiss, ha]
  · intro hc
    have hm : "account" ∈ tok.claims.aud := by simpa using hc
    simp [verifyToken, halg, hkid, hlook, hsig, hexp1, hexp2, hiss, hm]
  · intro ha hc
    have hm : "account" ∉ tok.claims.aud := by simpa using hc
    simp [verifyToken, halg, hkid, hlook, hsig, hexp1, hexp2, hiss, hm,
      List.length_pos.mpr ha]

/-- Concrete instantiation of `verifyToken_audience`. -/
theorem verifyToken_audience_witness :
    verifyToken tokGood 5 ks1 = .ok okClaims :=
  (verifyToken_audience tokGood 5 ks1 "k1" pkA (by decide) rfl (by decide) rfl rfl
    (by intro e he; injection he with h; omega)).2.1 (by decide)

/-! ## Claims about the key-set load -/

/-- After a Go map assignment, looking up the assigned kid yields the new value. -/
theorem mapLookup_mapInsert_self (m : KeyMap) (k : String) (v : RSAPublicKey) :
    mapLookup (mapInsert m k v) k = some v := by
  induction m with
  | nil => simp [mapInsert, mapLookup]
  | cons p rest ih =>
    obtain ⟨k0, v0⟩ := p
    by_cases h : k0 = k
    · simp [mapInsert, h, mapLookup]
    · simp [mapInsert, h, mapLookup, ih]

/-- A Go map assignment never removes a present binding. -/
theorem mapLookup_mapInsert_preserve (m : KeyMap) (k k2 : String) (v : RSAPublicKey)
    (h : mapLookup m k2 ≠ none) : mapLookup (mapInsert m k v) k2 ≠ none := by
  induction m with
  | nil => simp [mapLookup] at h
  | cons p rest ih =>
    obtain ⟨k0, v0⟩ := p
    by_cases h0 : k0 = k
    · subst h0
      by_cases h2 : k0 = k2
      · simp [mapInsert, mapLookup, h2]
      · simp [mapLookup, h2] at h
        simp [mapInsert, mapLookup, h2, h]
    · by_cases h2 : k0 = k2
      · subst h2
        simp [mapInsert, h0, mapLookup]
      · simp [mapLookup, h2] at h
        simp [mapInsert, h0, mapLookup, h2, ih h]

/-- A successful conversion loop leaves every kid of the remaining records
present in the final map, and the loop only adds bindings. -/
theorem convertKeysLoop_preserve (l : List JWK) (m m2 : KeyMap) (k2 : String)
    (h : convertKeysLoop l m = (.ok (), m2)) (hin : mapLookup m k2 ≠ none) :
    mapLookup m2 k2 ≠ none := by
  induction l generalizing m with
  | nil =>
    rw [convertKeysLoop] at h
    cases h
    exact hin
  | cons j rest ih =>
    rw [convertKeysLoop] at h
    cases hj : jwkToRSAPublicKey j with
    | error e => rw [hj] at h; cases h
    | ok pk =>
      rw [hj] at h
      exact ih (mapInsert m j.kid pk) h
        (mapLookup_mapInsert_preserve m j.kid k2 pk hin)

/-- When the conversion loop of `GetKeycloakPublicKey` succeeds, every
fetched key record was converted and its kid is present in the final map. -/
theorem convertKeysLoop_ok_mem (l : List JWK) (m m2 : KeyMap)
    (h : convertKeysLoop l m = (.ok (), m2)) :
    ∀ k ∈ l, (∃ pk, jwkToRSAPublicKey k = .ok pk) ∧ mapLookup m2 k.kid ≠ none := by
  induction l generalizing m with
  | nil => intro k hk; cases hk
  | cons j rest ih =>
    intro k hk
    rw [convertKeysLoop] at h
    cases hj : jwkToRSAPublicKey j with
    | error e => rw [hj] at h; cases h
    | ok pk =>
      rw [hj] at h
      rcases List.mem_cons.mp hk with hk1 | hk2
      · subst hk1
        refine ⟨⟨pk, hj⟩, ?_⟩
        refine convertKeysLoop_preserve rest (mapInsert m k.kid pk) m2 k.kid h ?_
        simp [mapLookup_mapInsert_self]
      · exact ih (mapInsert m j.kid pk) h k hk2

/-- Claim C7 (amended): when the key-set fetch fails, `GetKeycloakPublicKey`
returns an error and the previous mapping is unchanged.  When the fetch
succeeds the previous mapping is discarded and the mapping is rebuilt from
empty by the conversion loop; if the whole function then returns without
error, every fetched key record was converted and is present in the final
mapping.  (When a record in the middle of a fetched document fails to
convert, the function errors but the mapping has already been replaced by a
partially populated one — the previous mapping is not restored; see the
counterexample.) -/
theorem getKeycloakPublicKey_load_behavior :
    (∀ (prev : KeyMap) (msg : String),
      GetKeycloakPublicKey (.error msg) prev =
        (.error ("failed to fetch JWKS: " ++ msg), prev)) ∧
    (∀ (prev : KeyMap) (jwks : JWKS),
      GetKeycloakPublicKey (.ok jwks) prev = convertKeysLoop jwks.keys []) ∧
    (∀ (prev m2 : KeyMap) (jwks : JWKS),
      GetKeycloakPublicKey (.ok jwks) prev = (.ok (), m2) →
      ∀ k ∈ jwks.keys, (∃ pk, jwkToRSAPublicKey k = .ok pk) ∧ mapLookup m2 k.kid ≠ none) := by
  refine ⟨fun prev msg => rfl, fun prev jwks => rfl, ?_⟩
  intro prev m2 jwks h k hk
  exact convertKeysLoop_ok_mem jwks.keys [] m2 h k hk

/-- Claim C7 counterexample: a fetched document whose first record converts
and whose second does not.  `GetKeycloakPublicKey` returns an error, yet
the mapping afterwards is neither the previous mapping nor a full
conversion of the document: it holds exactly the first converted key. -/
theorem getKeycloakPublicKey_partial_counterexample :
    (GetKeycloakPublicKey (.ok jwksPartial) [("old", pkA)]).1 =
      .error "failed to convert JWK to RSA public key: failed to decode modulus: illegal base64 data" ∧
    (GetKeycloakPublicKey (.ok jwksPartial) [("old", pkA)]).2 ≠ [("old", pkA)] ∧
    (GetKeycloakPublicKey (.ok jwksPartial) [("old", pkA)]).2 =
      [("k1", { n := 65537, e := 65537 })] := by
  refine ⟨by decide, by decide, by decide⟩

/-- Concrete instantiation of `getKeycloakPublicKey_load_behavior`. -/
theorem getKeycloakPublicKey_load_behavior_witness :
    GetKeycloakPublicKey (.error "conn refused") [("old", pkA)] =
      (.error "failed to fetch JWKS: conn refused", [("old", pkA)]) ∧
    ((∃ pk, jwkToRSAPublicKey goodJWK = .ok pk) ∧
      mapLookup [("k1", { n := 65537, e := 65537 })] goodJWK.kid ≠ none) := by
  constructor
  · exact getKeycloakPublicKey_load_behavior.1 [("old", pkA)] "conn refused"
  · exact getKeycloakPublicKey_load_behavior.2.2 []
      [("k1", { n := 65537, e := 65537 })] jwksGood (by decide) goodJWK (by decide)

/-! ## Claims about the two gates -/

/-- Claim C5: a well-formed provider response with `active = false` is not
an error from `introspectToken` (it returns the parsed response), yet the
introspection gate rejects the request with HTTP 401 and never invokes the
downstream handler. -/
theorem introspection_inactive_rejected (hdr tokStr : String)
    (provider : String → ProviderResult) (r : IntrospectionResponse)
    (hex : extractBearerToken hdr = .ok tokStr)
    (hres : provider tokStr = .httpResponse 200 (.content (.introspection r)))
    (hact : r.active = false) :
    introspectToken tokStr provider = .ok r ∧
    TokenIntrospectionMiddleware hdr provider =
      { status := some 401
        body := [("error", "Token is not active or has been revoked"),
                 ("method", "Token Introspection")]
        ctx := none, nextCalled := false } := by
  have h1 : introspectToken tokStr provider = .ok r := by
    simp [introspectToken, hres]
  refine ⟨h1, ?_⟩
  simp [TokenIntrospectionMiddleware, hex, h1, hact]

/-- Concrete instantiation of `introspection_inactive_rejected`. -/
theorem introspection_inactive_rejected_witness :
    introspectToken "t"
        (fun _ => .httpResponse 200 (.content (.introspection rInactive))) = .ok rInactive ∧
    TokenIntrospectionMiddleware "Bearer t"
        (fun _ => .httpResponse 200 (.content (.introspection rInactive))) =
      { status := some 401
        body := [("error", "Token is not active or has been revoked"),
                 ("method", "Token Introspection")]
        ctx := none, nextCalled := false } :=
  introspection_inactive_rejected "Bearer t" "t"
    (fun _ => .httpResponse 200 (.content (.introspection rInactive))) rInactive
    (by decide) rfl rfl

/-- Claim C6: a transport error or a non-2xx provider response makes
`introspectToken` fail, and the introspection gate then answers HTTP 500
(not 401) without invoking the downstream handler. -/
theorem introspection_unreachable_500 (hdr tokStr : String)
    (provider : String → ProviderResult)
    (hex : extractBearerToken hdr = .ok tokStr)
    (hfail : (∃ m, provider tokStr = .transportError m) ∨
      (∃ st b, provider tokStr = .httpResponse st b ∧ (st < 200 ∨ 300 ≤ st))) :
    (∃ e, introspectToken tokStr provider = .error e) ∧
    (TokenIntrospectionMiddleware hdr provider).status = some 500 ∧
    (TokenIntrospectionMiddleware hdr provider).ctx = none ∧
    (TokenIntrospectionMiddleware hdr provider).nextCalled = false := by
  have h1 : ∃ e, introspectToken tokStr provider = .error e := by
    rcases hfail with ⟨m, hm⟩ | ⟨st, b, hb, hst⟩
    · exact ⟨.transport m, by simp [introspectToken, hm]⟩
    · cases b with
      | readError m => exact ⟨.readBody m, by simp [introspectToken, hb]⟩
      | content c =>
        have hne : st ≠ 200 := by omega
        exact ⟨.badStatus st, by simp [introspectToken, hb, hne]⟩
  obtain ⟨e, he⟩ := h1
  refine ⟨⟨e, he⟩, ?_, ?_, ?_⟩ <;> simp [TokenIntrospectionMiddleware, hex, he]

/-- Concrete instantiation of `introspection_unreachable_500` at HTTP 503. -/
theorem introspection_unreachable_500_witness :
    (∃ e, introspectToken "t"
      (fun _ => .httpResponse 503 (.content .malformedJSON)) = .error e) ∧
    (TokenIntrospectionMiddleware "Bearer t"
      (fun _ => .httpResponse 503 (.content .malformedJSON))).status = some 500 ∧
    (TokenIntrospectionMiddleware "Bearer t"
      (fun _ => .httpResponse 503 (.content .malformedJSON))).ctx = none ∧
    (TokenIntrospectionMiddleware "Bearer t"
      (fun _ => .httpResponse 503 (.content .malformedJSON))).nextCalled = false :=
  introspection_unreachable_500 "Bearer t" "t"
    (fun _ => .httpResponse 503 (.content .malformedJSON))
    (by decide) (Or.inr ⟨503, .content .malformedJSON, rfl, by omega⟩)

/-- Claim C8: for both gates and every input, the identity attributes
(user_id and email) are stored in the request context exactly when the gate
invokes the downstream handler; no rejection path stores them. -/
theorem gate_identity_iff_proceed (hdr : String) (parseTok : String → Option Token)
    (now : Int) (ks : KeyMap) (provider : String → ProviderResult) :
    ((JWTAuthMiddleware hdr parseTok now ks).ctx.isSome = true ↔
      (JWTAuthMiddleware hdr parseTok now ks).nextCalled = true) ∧
    ((TokenIntrospectionMiddleware hdr provider).ctx.isSome = true ↔
      (TokenIntrospectionMiddleware hdr provider).nextCalled = true) := by
  constructor
  · cases h : extractBearerToken hdr with
    | error e => simp [JWTAuthMiddleware, h]
    | ok t =>
      cases h2 : verifyTokenStr t parseTok now ks with
      | error e => simp [JWTAuthMiddleware, h, h2]
      | ok c => simp [JWTAuthMiddleware, h, h2]
  · cases h : extractBearerToken hdr with
    | error e => simp [TokenIntrospectionMiddleware, h]
    | ok t =>
      cases h2 : introspectToken t provider with
      | error e => simp [TokenIntrospectionMiddleware, h, h2]
      | ok r =>
        by_cases ha : r.active = true
        · simp [TokenIntrospectionMiddleware, h, h2, ha]
        · simp [TokenIntrospectionMiddleware, h, h2, ha]

/-- Claim C9 (amended): every rejection by either gate carries a
machine-readable reason (an "error" field); rejections issued after the
bearer token was successfully extracted also carry the verification method
(a "method" field).  The rejections written by the bearer extractor itself
carry no method field; see the counterexample. -/
theorem rejection_body_fields (hdr : String) (parseTok : String → Option Token)
    (now : Int) (ks : KeyMap) (provider : String → ProviderResult) :
    ((JWTAuthMiddleware hdr parseTok now ks).nextCalled = false →
      hasField (JWTAuthMiddleware hdr parseTok now ks).body "error" = true) ∧
    ((TokenIntrospectionMiddleware hdr provider).nextCalled = false →
      hasField (TokenIntrospectionMiddleware hdr provider).body "error" = true) ∧
    (∀ tokStr, extractBearerToken hdr = .ok tokStr →
      (JWTAuthMiddleware hdr parseTok now ks).nextCalled = false →
      hasField (JWTAuthMiddleware hdr parseTok now ks).body "method" = true) ∧
    (∀ tokStr, extractBearerToken hdr = .ok tokStr →
      (TokenIntrospectionMiddleware hdr provider).nextCalled = false →
      hasField (TokenIntrospectionMiddleware hdr provider).body "method" = true) := by
  refine ⟨?_, ?_, ?_, ?_⟩
  · cases h : extractBearerToken hdr with
    | error e => cases e <;> simp [JWTAuthMiddleware, h, hasField, extractErrBody]
    | ok t =>
      cases h2 : verifyTokenStr t parseTok now ks with
      | error e => simp [JWTAuthMiddleware, h, h2, hasField]
      | ok c => simp [JWTAuthMiddleware, h, h2]
  · cases h : extractBearerToken hdr with
    | error e => cases e <;> simp [TokenIntrospectionMiddleware, h, hasField, extractErrBody]
    | ok t =>
      cases h2 : introspectToken t provider with
      | error e => simp [TokenIntrospectionMiddleware, h, h2, hasField]
      | ok r =>
        by_cases ha : r.active = true
        · simp [TokenIntrospectionMiddleware, h, h2, ha]
        · simp [TokenIntrospectionMiddleware, h, h2, ha, hasField]
  · intro tokStr hex
    cases h2 : verifyTokenStr tokStr parseTok now ks with
    | error e => simp [JWTAuthMiddleware, hex, h2, hasField]
    | ok c => simp [JWTAuthMiddleware, hex, h2]
  · intro tokStr hex
    cases h2 : introspectToken tokStr provider with
    | error e => simp [TokenIntrospectionMiddleware, hex, h2, hasField]
    | ok r =>
      by_cases ha : r.active = true
      · simp [TokenIntrospectionMiddleware, hex, h2, ha]
      · simp [TokenIntrospectionMiddleware, hex, h2, ha, hasField]

/-- Claim C9 counterexample: the rejection produced for a missing
authorization header is written by the bearer extractor; it is a rejection
(no downstream call, status 401) whose body carries an "error" field but no
"method" field, so it does not indicate which verification method rejected
the request. -/
theorem rejection_missing_method_counterexample :
    (JWTAuthMiddleware "" (fun _ => none) 0 []).nextCalled = false ∧
    (JWTAuthMiddleware "" (fun _ => none) 0 []).status = some 401 ∧
    hasField (JWTAuthMiddleware "" (fun _ => none) 0 []).body "error" = true ∧
    hasField (JWTAuthMiddleware "" (fun _ => none) 0 []).body "method" = false := by
  refine ⟨by decide, by decide, by decide, by decide⟩

/-- Concrete instantiation of `rejection_body_fields`: a structurally
malformed token is rejected by the JWT gate with both fields present. -/
theorem rejection_body_fields_witness :
    hasField (JWTAuthMiddleware "Bearer x" (fun _ => none) 0 []).body "error" = true ∧
    hasField (JWTAuthMiddleware "Bearer x" (fun _ => none) 0 []).body "method" = true := by
  constructor
  · exact (rejection_body_fields "Bearer x" (fun _ => none) 0 []
      (fun _ => .transportError "e")).1 (by decide)
  · exact (rejection_body_fields "Bearer x" (fun _ => none) 0 []
      (fun _ => .transportError "e")).2.2.1 "x" (by decide) (by decide)
